import Mathlib

/-!
Verification of the yew output adapter of typed-html
(src/typed-html/src/output/yew.rs).

The file embeds the adapter shallowly:
* the generic event-payload and message types of the upstream framework are
  abstracted into a bundle `EventTypes`;
* yew's `Listener`, `VTag`, `VText`, `VNode` types are modelled by the fields
  the adapter actually touches (a `VTag` carries a tag name, an attribute list,
  a listener list and a child list);
* Rust panics (`Option::unwrap` on `None`) are modelled by `Except.error`.
-/

namespace TypedHtmlYew

/-- Bundle of the external type parameters of the adapter: the three yew event
payload types `html::onblur::Event`, `html::onchange::Event`,
`html::onclick::Event` and the component message type `COMP::Message`.
These types come from the yew framework and are opaque to the adapter. -/
structure EventTypes : Type 1 where
  blurEv : Type
  changeEv : Type
  clickEv : Type
  msg : Type

/-- Models yew's `html::$action::Wrapper::from(f)`: a framework listener
wrapping an event callback.  Only its construction from a closure is used by
the adapter (yew.rs line 49). -/
structure Wrapper (E M : Type) : Type where
  callback : E → M

/-- A type-erased yew listener (`Box<dyn Listener<COMP>>`), tagged by which of
the three declared event kinds produced it.  The adapter only ever boxes a
`html::$action::Wrapper`, so each case carries one. -/
inductive AnyListener (τ : EventTypes) : Type where
  | onblur (l : Wrapper τ.blurEv τ.msg) : AnyListener τ
  | onchange (l : Wrapper τ.changeEv τ.msg) : AnyListener τ
  | onclick (l : Wrapper τ.clickEv τ.msg) : AnyListener τ

/-- Models `BoxedListener<COMP, E>` (yew.rs lines 182-185):
`BoxedListener(Option<Box<dyn Listener<COMP>>>, PhantomData<E>)`.
`E` is the phantom event type. -/
structure BoxedListener (τ : EventTypes) (E : Type) : Type where
  inner : Option (AnyListener τ)

/-- The yew virtual-DOM action names declared by the `declare_events_yew!`
invocation (yew.rs lines 91-165); only `blur`, `change` and `click` are
uncommented. -/
inductive YewAction : Type where
  | onblur : YewAction
  | onchange : YewAction
  | onclick : YewAction
deriving DecidableEq

/-- The `ConcreteEvent::EVENT_TYPE` constant generated for each
`html::$action::Event` by the macro: `stringify!($name)` (yew.rs line 40). -/
def eventTypeOf : YewAction → String
  | .onblur => "blur"
  | .onchange => "change"
  | .onclick => "click"

/-- The event table declared by the `declare_events_yew!` invocation: each
uncommented `$name : $action` pair (yew.rs lines 95, 99, 100). -/
def declaredEventsYew : List (String × YewAction) :=
  [("blur", YewAction.onblur), ("change", YewAction.onchange),
   ("click", YewAction.onclick)]

/-- Models the `Events<COMP>` container generated by `declare_events_yew!`
(yew.rs lines 32-36): one public `Option`-valued handler field per declared
DOM event name.  The field type `Option<Box<dyn EventHandler<Yew<COMP>, E>>>`
is modelled by the only implementor in the file, `BoxedListener`. -/
structure Events (τ : EventTypes) : Type where
  blur : Option (BoxedListener τ τ.blurEv)
  change : Option (BoxedListener τ τ.changeEv)
  click : Option (BoxedListener τ τ.clickEv)

/-- Models `impl Default for Events` (yew.rs lines 64-72): every field `None`. -/
def Events.default (τ : EventTypes) : Events τ :=
  ⟨none, none, none⟩

/-- Models yew's `VTag` as the adapter uses it: `VTag::new(name)` plus the
`attributes` map it assigns, the listeners added by `add_listener`, and the
children (which yew's `VTag` carries but the adapter never touches).
`Child` is the node type, tied after `YewVNode` is declared. -/
structure VTagData (τ : EventTypes) (Child : Type) : Type where
  name : String
  attributes : List (String × String)
  listeners : List (AnyListener τ)
  children : List Child

/-- Models yew's `VNode<COMP>` as the adapter uses it: a `VText` or a `VTag`. -/
inductive YewVNode (τ : EventTypes) : Type where
  | vtext (text : String) : YewVNode τ
  | vtag (tag : VTagData τ (YewVNode τ)) : YewVNode τ

/-- A yew `VTag` whose children are yew nodes. -/
abbrev VTagD (τ : EventTypes) : Type := VTagData τ (YewVNode τ)

/-- Models `crate::dom::VElement` as used by yew.rs: a tag name, a vector of
`(key, value)` attribute pairs, the `Events` container, and child nodes.
Its fields are those read at yew.rs lines 237-243 (`element.name`,
`element.attributes`, `element.events`, and `element.children`, the last one
only in the commented-out `build`). -/
structure VElement (τ : EventTypes) (Child : Type) : Type where
  name : String
  attributes : List (String × String)
  events : Events τ
  children : List Child

/-- Models `crate::dom::VNode` (imported as `DomVNode`, yew.rs line 15), the
framework-agnostic virtual-DOM node: safe text, unsafe text (`rawText` here;
the source variant is named `UnsafeText`), or an element. -/
inductive DomVNode (τ : EventTypes) : Type where
  | text (s : String) : DomVNode τ
  | rawText (s : String) : DomVNode τ
  | element (e : VElement τ (DomVNode τ)) : DomVNode τ

/-- A DOM element whose children are DOM nodes. -/
abbrev VElem (τ : EventTypes) : Type := VElement τ (DomVNode τ)

/-- Models `From<F> for BoxedListener<COMP, html::onblur::Event>`
(yew.rs lines 43-51): wraps the closure in the framework `Wrapper` and stores
it as `Some` boxed listener. -/
def BoxedListener.fromBlurFn (τ : EventTypes) (f : τ.blurEv → τ.msg) :
    BoxedListener τ τ.blurEv :=
  ⟨some (AnyListener.onblur ⟨f⟩)⟩

/-- Models `From<F> for BoxedListener<COMP, html::onchange::Event>`. -/
def BoxedListener.fromChangeFn (τ : EventTypes) (f : τ.changeEv → τ.msg) :
    BoxedListener τ τ.changeEv :=
  ⟨some (AnyListener.onchange ⟨f⟩)⟩

/-- Models `From<F> for BoxedListener<COMP, html::onclick::Event>`. -/
def BoxedListener.fromClickFn (τ : EventTypes) (f : τ.clickEv → τ.msg) :
    BoxedListener τ τ.clickEv :=
  ⟨some (AnyListener.onclick ⟨f⟩)⟩

/-- Models `From<F> for Box<dyn EventHandler<Yew<COMP>, html::onblur::Event>>`
(yew.rs lines 53-61): `Box::new(BoxedListener::from(f))`.  The box is erased,
so this is the `BoxedListener` conversion itself. -/
def boxedHandlerFromBlurFn (τ : EventTypes) (f : τ.blurEv → τ.msg) :
    BoxedListener τ τ.blurEv :=
  BoxedListener.fromBlurFn τ f

/-- Models the boxed-handler `From` conversion for `onchange`. -/
def boxedHandlerFromChangeFn (τ : EventTypes) (f : τ.changeEv → τ.msg) :
    BoxedListener τ τ.changeEv :=
  BoxedListener.fromChangeFn τ f

/-- Models the boxed-handler `From` conversion for `onclick`. -/
def boxedHandlerFromClickFn (τ : EventTypes) (f : τ.clickEv → τ.msg) :
    BoxedListener τ τ.clickEv :=
  BoxedListener.fromClickFn τ f

/-- Models `BoxedListener::attach` (yew.rs lines 192-195):
`let handler = self.0.take().unwrap(); target.add_listener(handler)`.
`take` leaves `None` behind; `unwrap` on `None` is a panic, modelled as
`Except.error`.  Returns the updated listener and target. -/
def BoxedListener.attach {τ : EventTypes} {E : Type} (b : BoxedListener τ E)
    (target : VTagD τ) : Except String (BoxedListener τ E × VTagD τ) :=
  match b.inner with
  | some handler =>
      Except.ok (⟨none⟩,
        ⟨target.name, target.attributes, target.listeners ++ [handler],
         target.children⟩)
  | none => Except.error "called Option unwrap on a None value"

/-- Models `EventHandler::render` for `BoxedListener` (yew.rs lines 197-199). -/
def BoxedListener.render {τ : EventTypes} {E : Type}
    (_b : BoxedListener τ E) : Option String :=
  none

/-- One field step of the expansion of `for_events_yew!` (yew.rs lines 76-82):
`if let Some(ref mut handler) = events.$name { handler.attach(target); }`.
A `None` field is skipped; a `Some` field is attached and written back. -/
def attachOpt {τ : EventTypes} {E : Type} (field : Option (BoxedListener τ E))
    (target : VTagD τ) :
    Except String (Option (BoxedListener τ E) × VTagD τ) :=
  match field with
  | none => Except.ok (none, target)
  | some b =>
      match b.attach target with
      | Except.ok (b', target') => Except.ok (some b', target')
      | Except.error e => Except.error e

/-- Models `Yew::install_handlers` (yew.rs lines 203-207): the
`for_events_yew!` expansion visits the fields in declaration order
(`blur`, `change`, `click`), attaching each one that is `Some`. -/
def installHandlers {τ : EventTypes} (target : VTagD τ) (handlers : Events τ) :
    Except String (VTagD τ × Events τ) :=
  match attachOpt handlers.blur target with
  | Except.error e => Except.error e
  | Except.ok (blur', t₁) =>
      match attachOpt handlers.change t₁ with
      | Except.error e => Except.error e
      | Except.ok (change', t₂) =>
          match attachOpt handlers.click t₂ with
          | Except.error e => Except.error e
          | Except.ok (click', t₃) => Except.ok (t₃, ⟨blur', change', click'⟩)

/-- Models the `match vnode` of `Yew::to_yew_html` (yew.rs lines 233-246),
producing the `node : Option<VNode<COMP>>` local.  Each text arm yields
`Some(VText::new(text.to_owned()).into())`; the element arm builds
`VTag::new(element.name)`, assigns
`element.attributes.into_iter().map(|(k, v)| (k.to_owned(), v)).collect()`,
then runs `install_handlers`.  `element.children` is never read. -/
def toYewHtmlNode {τ : EventTypes} (vnode : DomVNode τ) :
    Except String (Option (YewVNode τ)) :=
  match vnode with
  | DomVNode.text s => Except.ok (some (YewVNode.vtext s))
  | DomVNode.rawText s => Except.ok (some (YewVNode.vtext s))
  | DomVNode.element e =>
      match installHandlers
          ⟨e.name, e.attributes.map (fun kv => (kv.1, kv.2)), [], []⟩
          e.events with
      | Except.error msg => Except.error msg
      | Except.ok (tag, _) => Except.ok (some (YewVNode.vtag tag))

/-- Models `Yew::to_yew_html` (yew.rs lines 232-249): the match above followed
by `node.unwrap()`, the latter modelled as an error on `None`. -/
def toYewHtml {τ : EventTypes} (vnode : DomVNode τ) :
    Except String (YewVNode τ) :=
  match toYewHtmlNode vnode with
  | Except.error msg => Except.error msg
  | Except.ok (some n) => Except.ok n
  | Except.ok none => Except.error "called Option unwrap on a None value"

/-- An events container is ready when every handler that is present still holds
its inner listener (as every handler freshly made by the `From` conversions
does). -/
def Events.ready {τ : EventTypes} (ev : Events τ) : Bool :=
  (ev.blur.all fun b => b.inner.isSome) &&
  (ev.change.all fun b => b.inner.isSome) &&
  (ev.click.all fun b => b.inner.isSome)

/-- The inner listeners of the handlers present in an events container, in
field-declaration order. -/
def Events.presentListeners {τ : EventTypes} (ev : Events τ) :
    List (AnyListener τ) :=
  (ev.blur.bind fun b => b.inner).toList ++
  (ev.change.bind fun b => b.inner).toList ++
  (ev.click.bind fun b => b.inner).toList

/-- The number of `Some` handler fields in an events container. -/
def Events.someCount {τ : EventTypes} (ev : Events τ) : Nat :=
  (if ev.blur.isSome then 1 else 0) +
  (if ev.change.isSome then 1 else 0) +
  (if ev.click.isSome then 1 else 0)

/-- The events container after every present handler was attached: each `Some`
field keeps its handler, but the handler's inner listener was taken. -/
def Events.drained {τ : EventTypes} (ev : Events τ) : Events τ :=
  ⟨ev.blur.map fun _ => ⟨none⟩, ev.change.map fun _ => ⟨none⟩,
   ev.click.map fun _ => ⟨none⟩⟩

/-!
Spec-modelled adapter revisions.  Only one revision of the adapter is under
`src/`; the spec states that four near-duplicate revisions of the same adapter
exist, each tracking an evolving upstream API and behaviourally equivalent,
differing only in event trait names, listener registration signatures, and
macro-generated event tables.  Revisions 2-4 below are modelled from those
words: each varies one of the named API surfaces while keeping the same
translation logic.
-/

/-- Modelled from the spec: revision 2 of `BoxedListener::attach`, targeting an
upstream API whose listener registration returns an `EventListenerHandle`
(modelled as `Unit`) instead of `()` being implicit — a different registration
signature, same behaviour. -/
def attachRev2 {τ : EventTypes} {E : Type} (b : BoxedListener τ E)
    (target : VTagD τ) :
    Except String (Unit × BoxedListener τ E × VTagD τ) :=
  match b.inner with
  | some handler =>
      Except.ok ((), ⟨none⟩,
        ⟨target.name, target.attributes, target.listeners ++ [handler],
         target.children⟩)
  | none => Except.error "called Option unwrap on a None value"

/-- Modelled from the spec: revision 2's per-field step, discarding the
registration handle. -/
def attachOptRev2 {τ : EventTypes} {E : Type}
    (field : Option (BoxedListener τ E)) (target : VTagD τ) :
    Except String (Option (BoxedListener τ E) × VTagD τ) :=
  match field with
  | none => Except.ok (none, target)
  | some b =>
      match attachRev2 b target with
      | Except.ok (_, b', target') => Except.ok (some b', target')
      | Except.error e => Except.error e

/-- Modelled from the spec: revision 2's `install_handlers`, written against
the handle-returning registration API. -/
def installHandlersRev2 {τ : EventTypes} (target : VTagD τ)
    (handlers : Events τ) : Except String (VTagD τ × Events τ) :=
  match attachOptRev2 handlers.blur target with
  | Except.error e => Except.error e
  | Except.ok (blur', t₁) =>
      match attachOptRev2 handlers.change t₁ with
      | Except.error e => Except.error e
      | Except.ok (change', t₂) =>
          match attachOptRev2 handlers.click t₂ with
          | Except.error e => Except.error e
          | Except.ok (click', t₃) => Except.ok (t₃, ⟨blur', change', click'⟩)

/-- Modelled from the spec: revision 2 of `to_yew_html`, identical translation
logic over the handle-returning listener-registration API. -/
def toYewHtmlRev2 {τ : EventTypes} (vnode : DomVNode τ) :
    Except String (YewVNode τ) :=
  match vnode with
  | DomVNode.text s => Except.ok (YewVNode.vtext s)
  | DomVNode.rawText s => Except.ok (YewVNode.vtext s)
  | DomVNode.element e =>
      match installHandlersRev2
          ⟨e.name, e.attributes.map (fun kv => (kv.1, kv.2)), [], []⟩
          e.events with
      | Except.error msg => Except.error msg
      | Except.ok (tag, _) => Except.ok (YewVNode.vtag tag)

/-- Modelled from the spec: revision 3's event table, generated under a renamed
event trait (the upstream `ConcreteEvent` instead of the local copy); the
table contents are unchanged. -/
def eventTypeOfRev3 : YewAction → String
  | YewAction.onblur => "blur"
  | YewAction.onchange => "change"
  | YewAction.onclick => "click"

/-- Modelled from the spec: revision 3 of `to_yew_html`; the revision differs
only in the event trait its macro-generated table implements, so the
translation body is the same. -/
def toYewHtmlRev3 {τ : EventTypes} (vnode : DomVNode τ) :
    Except String (YewVNode τ) :=
  match toYewHtmlNode vnode with
  | Except.error msg => Except.error msg
  | Except.ok (some n) => Except.ok n
  | Except.ok none => Except.error "called Option unwrap on a None value"

/-- Modelled from the spec: revision 4's `install_handlers`, whose macro
expands into a fold over the field steps rather than a statement sequence —
a different macro-generated shape, same field order and behaviour. -/
def installHandlersRev4 {τ : EventTypes} (target : VTagD τ)
    (handlers : Events τ) : Except String (VTagD τ × Events τ) := do
  let (blur', t₁) ← attachOpt handlers.blur target
  let (change', t₂) ← attachOpt handlers.change t₁
  let (click', t₃) ← attachOpt handlers.click t₂
  pure (t₃, ⟨blur', change', click'⟩)

/-- Modelled from the spec: revision 4 of `to_yew_html`, over revision 4's
macro-generated installer. -/
def toYewHtmlRev4 {τ : EventTypes} (vnode : DomVNode τ) :
    Except String (YewVNode τ) :=
  match vnode with
  | DomVNode.text s => Except.ok (YewVNode.vtext s)
  | DomVNode.rawText s => Except.ok (YewVNode.vtext s)
  | DomVNode.element e =>
      match installHandlersRev4
          ⟨e.name, e.attributes.map (fun kv => (kv.1, kv.2)), [], []⟩
          e.events with
      | Except.error msg => Except.error msg
      | Except.ok (tag, _) => Except.ok (YewVNode.vtag tag)

/-!  Concrete inputs used by witnesses and counterexamples. -/

/-- A concrete instantiation of the abstract framework types. -/
def unitTypes : EventTypes :=
  ⟨Unit, Unit, Unit, Unit⟩

/-- A concrete element with one text child, an attribute and no handlers. -/
def childElem : VElem unitTypes :=
  ⟨"div", [("id", "x")], Events.default unitTypes, [DomVNode.text "hi"]⟩

/-- A concrete events container with fresh blur and click handlers. -/
def twoEvents : Events unitTypes :=
  ⟨some (BoxedListener.fromBlurFn unitTypes fun _ => ()), none,
   some (BoxedListener.fromClickFn unitTypes fun _ => ())⟩

/-- A concrete empty tag under construction. -/
def emptyTag : VTagD unitTypes :=
  ⟨"p", [], [], []⟩

/-!  Theorems. -/

/-- When every present handler still holds its inner listener,
`install_handlers` succeeds: the target keeps its name, attributes and
children, gains the present listeners in field order, and every present
handler is drained. -/
theorem installHandlers_eq {τ : EventTypes} (t : VTagD τ) (ev : Events τ)
    (h : ev.ready = true) :
    installHandlers t ev =
      Except.ok (⟨t.name, t.attributes, t.listeners ++ ev.presentListeners,
        t.children⟩, ev.drained) := by
  obtain ⟨b, c, k⟩ := ev
  rcases b with _ | ⟨_ | lb⟩ <;> rcases c with _ | ⟨_ | lc⟩ <;>
    rcases k with _ | ⟨_ | lk⟩ <;>
    simp_all [Events.ready, installHandlers, attachOpt, BoxedListener.attach,
      Events.presentListeners, Events.drained]

/-- Claim C1: `to_yew_html` converts `DomVNode::Text(t)` to a `VText` whose
text equals `t`, and converts `DomVNode::Element(e)` (whose handlers are
fresh) to a `VTag` whose tag name equals `e.name` and whose attribute map
holds exactly the `(key, value)` pairs of `e.attributes`. -/
theorem toYewHtml_converts_nodes (τ : EventTypes) :
    (∀ s : String,
      @toYewHtml τ (DomVNode.text s) = Except.ok (YewVNode.vtext s)) ∧
    (∀ e : VElem τ, e.events.ready = true →
      toYewHtml (DomVNode.element e) =
        Except.ok (YewVNode.vtag
          ⟨e.name, e.attributes, e.events.presentListeners, []⟩)) := by
  refine ⟨fun s => rfl, fun e h => ?_⟩
  simp [toYewHtml, toYewHtmlNode, installHandlers_eq _ _ h]

/-- Witness for claim C1 at a concrete element with one attribute. -/
theorem toYewHtml_converts_nodes_witness :
    Events.ready childElem.events = true ∧
    toYewHtml (DomVNode.element childElem) =
      Except.ok (YewVNode.vtag ⟨childElem.name, childElem.attributes,
        childElem.events.presentListeners, []⟩) :=
  ⟨rfl, (toYewHtml_converts_nodes unitTypes).2 childElem rfl⟩

/-- Claim C2 (code bug): on a concrete element with one text child,
`to_yew_html` returns a `VTag` with an empty child list — `element.children`
is never read by the function, so the input subtree is dropped rather than
recursively translated. -/
theorem toYewHtml_drops_children :
    childElem.children = [DomVNode.text "hi"] ∧
    toYewHtml (DomVNode.element childElem) =
      Except.ok (YewVNode.vtag ⟨"div", [("id", "x")], [], []⟩) :=
  ⟨rfl, rfl⟩

/-- Claim C3: `install_handlers` attaches exactly one listener per `Some`
handler field (in field order, draining each one) and skips `None` fields:
the listener list grows by exactly the present listeners, whose count is the
number of `Some` fields. -/
theorem installHandlers_attaches_each_present (τ : EventTypes) (t : VTagD τ)
    (ev : Events τ) (h : ev.ready = true) :
    installHandlers t ev =
      Except.ok (⟨t.name, t.attributes, t.listeners ++ ev.presentListeners,
        t.children⟩, ev.drained) ∧
    ev.presentListeners.length = ev.someCount := by
  refine ⟨installHandlers_eq t ev h, ?_⟩
  obtain ⟨b, c, k⟩ := ev
  rcases b with _ | ⟨_ | lb⟩ <;> rcases c with _ | ⟨_ | lc⟩ <;>
    rcases k with _ | ⟨_ | lk⟩ <;>
    simp_all [Events.ready, Events.presentListeners, Events.someCount]

/-- Witness for claim C3 at an events container holding a fresh blur handler
and a fresh click handler, with `change` set to `None`. -/
theorem installHandlers_attaches_each_present_witness :
    Events.ready twoEvents = true ∧
    (installHandlers emptyTag twoEvents =
      Except.ok (⟨emptyTag.name, emptyTag.attributes,
        emptyTag.listeners ++ twoEvents.presentListeners, emptyTag.children⟩,
        twoEvents.drained) ∧
     twoEvents.presentListeners.length = twoEvents.someCount) :=
  ⟨rfl, installHandlers_attaches_each_present unitTypes emptyTag twoEvents rfl⟩

/-- Claim C4: every pair declared by the `declare_events_yew!` invocation maps
the framework event type to an `EVENT_TYPE` constant equal to the DOM event
name; the declared names are exactly `blur`, `change`, `click`; and an
`Events` container is determined by exactly its one `Option`-valued handler
field per declared name. -/
theorem declaredEvents_table_spec :
    (∀ p ∈ declaredEventsYew, eventTypeOf p.2 = p.1) ∧
    declaredEventsYew.map Prod.fst = ["blur", "change", "click"] ∧
    (∀ (τ : EventTypes) (e₁ e₂ : Events τ), e₁.blur = e₂.blur →
      e₁.change = e₂.change → e₁.click = e₂.click → e₁ = e₂) := by
  refine ⟨by decide, rfl, ?_⟩
  intro τ e₁ e₂ h1 h2 h3
  cases e₁
  cases e₂
  simp_all

/-- Witness for claim C4 at the `click` table entry and a concrete container. -/
theorem declaredEvents_table_spec_witness :
    eventTypeOf YewAction.onclick = "click" ∧
    Events.default unitTypes = Events.default unitTypes :=
  ⟨declaredEvents_table_spec.1 ("click", YewAction.onclick) (by decide),
   declaredEvents_table_spec.2.2 unitTypes (Events.default unitTypes)
     (Events.default unitTypes) rfl rfl rfl⟩

/-- Claim C5: for each declared event type, the `From` conversion of a closure
`f` yields a `BoxedListener` whose inner option initially holds `Some` boxed
framework listener wrapping `f`, and the boxed-`EventHandler` conversion is
that same `BoxedListener`. -/
theorem boxedListener_from_wraps_closure (τ : EventTypes) :
    (∀ f : τ.blurEv → τ.msg,
      (BoxedListener.fromBlurFn τ f).inner = some (AnyListener.onblur ⟨f⟩) ∧
      boxedHandlerFromBlurFn τ f = BoxedListener.fromBlurFn τ f) ∧
    (∀ f : τ.changeEv → τ.msg,
      (BoxedListener.fromChangeFn τ f).inner = some (AnyListener.onchange ⟨f⟩) ∧
      boxedHandlerFromChangeFn τ f = BoxedListener.fromChangeFn τ f) ∧
    (∀ f : τ.clickEv → τ.msg,
      (BoxedListener.fromClickFn τ f).inner = some (AnyListener.onclick ⟨f⟩) ∧
      boxedHandlerFromClickFn τ f = BoxedListener.fromClickFn τ f) :=
  ⟨fun _ => ⟨rfl, rfl⟩, fun _ => ⟨rfl, rfl⟩, fun _ => ⟨rfl, rfl⟩⟩

/-- Helper for claim C6: revision 2's per-field step equals revision 1's. -/
theorem attachOptRev2_eq {τ : EventTypes} {E : Type}
    (field : Option (BoxedListener τ E)) (target : VTagD τ) :
    attachOptRev2 field target = attachOpt field target := by
  rcases field with _ | ⟨_ | l⟩ <;>
    simp [attachOptRev2, attachOpt, attachRev2, BoxedListener.attach]

/-- Helper for claim C6: revision 2's installer equals revision 1's. -/
theorem installHandlersRev2_eq {τ : EventTypes} (target : VTagD τ)
    (handlers : Events τ) :
    installHandlersRev2 target handlers = installHandlers target handlers := by
  simp only [installHandlersRev2, installHandlers, attachOptRev2_eq]

/-- Helper for claim C6: revision 4's fold-shaped installer equals
revision 1's. -/
theorem installHandlersRev4_eq {τ : EventTypes} (target : VTagD τ)
    (handlers : Events τ) :
    installHandlersRev4 target handlers = installHandlers target handlers := by
  unfold installHandlersRev4 installHandlers
  simp only [bind, Except.bind, pure]
  rcases hb : attachOpt handlers.blur target with e | ⟨blur', t₁⟩ <;>
    simp only [hb]
  rcases hc : attachOpt handlers.change t₁ with e | ⟨change', t₂⟩ <;>
    simp only [hc]
  rcases hk : attachOpt handlers.click t₂ with e | ⟨click', t₃⟩ <;>
    simp [hk, Except.pure]

/-- Claim C6: the four adapter revisions (the one under `src/` and the three
spec-modelled ones varying the listener-registration signature, the event
trait, and the macro-generated installer shape) are behaviourally equivalent:
each revision translates every input node to the very same output node, and
the revisions' event tables agree. -/
theorem adapter_revisions_equivalent (τ : EventTypes) :
    (∀ v : DomVNode τ, toYewHtmlRev2 v = toYewHtml v) ∧
    (∀ v : DomVNode τ, toYewHtmlRev3 v = toYewHtml v) ∧
    (∀ v : DomVNode τ, toYewHtmlRev4 v = toYewHtml v) ∧
    (∀ a : YewAction, eventTypeOfRev3 a = eventTypeOf a) := by
  refine ⟨fun v => ?_, fun v => rfl, fun v => ?_, fun a => by cases a <;> rfl⟩
  · cases v with
    | text s => rfl
    | rawText s => rfl
    | element e =>
        simp only [toYewHtmlRev2, toYewHtml, toYewHtmlNode,
          installHandlersRev2_eq]
        cases installHandlers
            ⟨e.name, e.attributes.map (fun kv => (kv.1, kv.2)), [], []⟩
            e.events with
        | error msg => rfl
        | ok p => rfl
  · cases v with
    | text s => rfl
    | rawText s => rfl
    | element e =>
        simp only [toYewHtmlRev4, toYewHtml, toYewHtmlNode,
          installHandlersRev4_eq]
        cases installHandlers
            ⟨e.name, e.attributes.map (fun kv => (kv.1, kv.2)), [], []⟩
            e.events with
        | error msg => rfl
        | ok p => rfl

/-- Claim C7: for every string, `to_yew_html` sends `DomVNode::UnsafeText`
(`rawText` here) and `DomVNode::Text` to the identical `VText`, with the text
kept verbatim and no distinction between the two variants. -/
theorem toYewHtml_rawText_eq_text (τ : EventTypes) :
    ∀ s : String,
      @toYewHtml τ (DomVNode.rawText s) = toYewHtml (DomVNode.text s) ∧
      @toYewHtml τ (DomVNode.rawText s) = Except.ok (YewVNode.vtext s) :=
  fun _ => ⟨rfl, rfl⟩

/-- Claim C8: every arm of the `match` in `to_yew_html` produces a `Some`
node whenever it completes, so the final `node.unwrap()` never observes
`None`. -/
theorem toYewHtmlNode_isSome (τ : EventTypes) (v : DomVNode τ)
    (node : Option (YewVNode τ)) (h : toYewHtmlNode v = Except.ok node) :
    node.isSome = true := by
  cases v with
  | text s => simp [toYewHtmlNode] at h; simp [← h]
  | rawText s => simp [toYewHtmlNode] at h; simp [← h]
  | element e =>
      simp only [toYewHtmlNode] at h
      split at h
      · simp at h
      · simp only [Except.ok.injEq] at h
        simp [← h]

/-- Witness for claim C8 at a concrete element node. -/
theorem toYewHtmlNode_isSome_witness :
    toYewHtmlNode (DomVNode.element childElem) =
      Except.ok (some (YewVNode.vtag ⟨"div", [("id", "x")], [], []⟩)) ∧
    Option.isSome
      (some (YewVNode.vtag
        (⟨"div", [("id", "x")], [], []⟩ : VTagD unitTypes))) = true :=
  ⟨rfl, toYewHtmlNode_isSome unitTypes (DomVNode.element childElem) _ rfl⟩

/-- Claim C9: a `BoxedListener` whose inner option holds a listener attaches
it once, leaving the inner option `None`; attaching a drained listener
reaches the `unwrap`-of-`None` panic. -/
theorem boxedListener_attach_at_most_once (τ : EventTypes) (E : Type)
    (b : BoxedListener τ E) (l : AnyListener τ) (t t' : VTagD τ)
    (h : b.inner = some l) :
    b.attach t =
      Except.ok (⟨none⟩,
        ⟨t.name, t.attributes, t.listeners ++ [l], t.children⟩) ∧
    BoxedListener.attach (⟨none⟩ : BoxedListener τ E) t' =
      Except.error "called Option unwrap on a None value" := by
  obtain ⟨inner⟩ := b
  simp only [BoxedListener.mk.injEq] at h
  subst h
  exact ⟨rfl, rfl⟩

/-- Witness for claim C9 at a handler freshly produced by the `From`
conversion for `blur`. -/
theorem boxedListener_attach_at_most_once_witness :
    (BoxedListener.fromBlurFn unitTypes fun _ => ()).inner =
      some (AnyListener.onblur ⟨fun _ => ()⟩) ∧
    ((BoxedListener.fromBlurFn unitTypes fun _ => ()).attach emptyTag =
      Except.ok (⟨none⟩,
        ⟨emptyTag.name, emptyTag.attributes,
         emptyTag.listeners ++ [AnyListener.onblur ⟨fun _ => ()⟩],
         emptyTag.children⟩) ∧
     BoxedListener.attach (⟨none⟩ : BoxedListener unitTypes Unit) emptyTag =
       Except.error "called Option unwrap on a None value") :=
  ⟨rfl,
   boxedListener_attach_at_most_once unitTypes Unit
     (BoxedListener.fromBlurFn unitTypes fun _ => ())
     (AnyListener.onblur ⟨fun _ => ()⟩) emptyTag emptyTag rfl⟩

end TypedHtmlYew
